import Mathlib

/-!
Shallow embedding of the DefectDojo import/reimport scripts
(`defect_dojo_reimporter_v1.2.py` and
`defect_dojo_importer-reimporter/defect_dojo_importer.py`).

HTTP responses are modelled as explicit values handed to the functions by a
`Backend` (a bundle of response oracles, one per API endpoint the scripts
call).  Every function below mirrors the corresponding Python function of the
source; in addition each backend-calling operation returns the list of API
requests it issued, so that properties such as "the test locator is never
invoked" or "no product is created on the second call" are directly statable.
Python truthiness tests (`if engagement_id:`, `if not product_name:`) are
embedded as the explicit `truthy`/`strTruthy` functions.
-/

namespace DefectDojo

/-- One element of the results list of the product-type search endpoint. -/
structure PTRec where
  id : Nat
  name : String
deriving DecidableEq

/-- One element of the results list of the product search endpoint. -/
structure ProductRec where
  id : Nat
  name : String
  prod_type : Nat
deriving DecidableEq

/-- One element of the results list of the engagement search endpoint. -/
structure EngRec where
  id : Nat
deriving DecidableEq

/-- One element of the results list of the test search endpoint;
`updated` is the update timestamp the script sorts by. -/
structure TestRec where
  id : Nat
  updated : Nat
deriving DecidableEq

/-- A search response: HTTP status code plus the decoded results list. -/
structure SearchResponse (α : Type) where
  status_code : Nat
  results : List α
deriving DecidableEq

/-- The response to the product-creation POST: status code, the id of the
created record, and the raw body (used in the error message). -/
structure CreateResponse where
  status_code : Nat
  id : Nat
  content : String
deriving DecidableEq

/-- The response to an import/reimport upload POST. -/
structure UploadResponse where
  status_code : Nat
  content : String
deriving DecidableEq

/-- The exceptions the scripts can raise per report or at startup. -/
inductive PyError where
  | valueError (msg : String)
  | keyError (msg : String)
  | fileNotFound (msg : String)
  | productTypeNotFound (name : String)
  | productCreateFailed (status : Nat) (content : String)
  | authFailed (status : Nat) (content : String)
deriving DecidableEq

/-- `except ValueError` in the scripts catches exactly these. -/
def PyError.isValueError : PyError → Bool
  | .valueError _ => true
  | _ => false

/-- `str(e)`: the message text of each exception. -/
def PyError.msg : PyError → String
  | .valueError m => m
  | .keyError m => m
  | .fileNotFound m => m
  | .productTypeNotFound n => "Product type " ++ n ++ " not found in DefectDojo"
  | .productCreateFailed s c => "Failed to create/find product: " ++ toString s ++ " - " ++ c
  | .authFailed s c => "Authentication failed: " ++ toString s ++ " - " ++ c

deriving instance DecidableEq for Except

/-- The scan type hard-coded in both scripts. -/
def scanType : String := "HCL AppScan on Cloud SAST XML"

/-- The form fields of the import-scan POST of the v1.2 script. -/
structure ImportRequest where
  scan_type : String
  product_type_name : String
  product_name : String
  engagement_name : String
  auto_create_context : String
  deduplication_on_engagement : String
  close_old_findings : String
deriving DecidableEq

/-- The form fields of the reimport-scan POST of the v1.2 script. -/
structure ReimportRequest where
  scan_type : String
  product_type_name : String
  product_name : String
  engagement_name : String
  test : Nat
  auto_create_context : String
  deduplication_on_engagement : String
  close_old_findings : String
  do_not_reactivate : String
deriving DecidableEq

/-- The form fields of the product-creation POST. -/
structure ProductCreateRequest where
  name : String
  prod_type : Nat
  description : String
deriving DecidableEq

/-- The `data` dict built by `import_scan` in the v1.2 script. -/
def mkImportRequest (product_type_name product_name engagement_name : String) : ImportRequest :=
  ⟨scanType, product_type_name, product_name, engagement_name, "true", "false", "false"⟩

/-- The `data` dict built by `import_scan` in the simple importer variant
(`defect_dojo_importer.py`): deduplication and close-old-findings are `true`. -/
def mkImportRequestSimple (product_type_name product_name engagement_name : String) :
    ImportRequest :=
  ⟨scanType, product_type_name, product_name, engagement_name, "true", "true", "true"⟩

/-- The `data` dict built by `reimport_scan` in the v1.2 script. -/
def mkReimportRequest (product_type_name product_name engagement_name : String)
    (test_id : Nat) : ReimportRequest :=
  ⟨scanType, product_type_name, product_name, engagement_name, test_id,
   "true", "false", "false", "true"⟩

/-- The `data` dict built by the product-creation branch of `get_product_id`. -/
def mkProductCreateRequest (product_name : String) (prod_type_id : Nat) : ProductCreateRequest :=
  ⟨product_name, prod_type_id, "Automatically created by import script"⟩

/-- One API request issued by the script, recorded in the call trace. -/
inductive ApiRequest where
  | productTypeSearch (name : String)
  | productSearch (name : String)
  | productCreate (req : ProductCreateRequest)
  | engagementSearch (productId : Nat) (name : String)
  | testSearch (engagementId : Nat) (scan_type : String)
  | importUpload (req : ImportRequest)
  | reimportUpload (req : ReimportRequest)
deriving DecidableEq

/-- Whether a traced request is a product creation. -/
def ApiRequest.isProductCreate : ApiRequest → Bool
  | .productCreate _ => true
  | _ => false

/-- Whether a traced request is a test search (the Test Locator call). -/
def ApiRequest.isTestSearch : ApiRequest → Bool
  | .testSearch _ _ => true
  | _ => false

/-- Whether a traced request is a reimport upload. -/
def ApiRequest.isReimportUpload : ApiRequest → Bool
  | .reimportUpload _ => true
  | _ => false

/-- The external DefectDojo API as a bundle of response oracles: for every
request the script can issue, the response the server would give.  A fixed
`Backend` models one unchanged server state. -/
structure Backend where
  productTypeResp : String → SearchResponse PTRec
  productSearchResp : String → SearchResponse ProductRec
  productCreateResp : ProductCreateRequest → CreateResponse
  engagementResp : Nat → String → SearchResponse EngRec
  testResp : Nat → String → SearchResponse TestRec
  importResp : ImportRequest → UploadResponse
  reimportResp : ReimportRequest → UploadResponse

/-- `get_product_type_id` applied to the response of the product-type search:
`if response.status_code == 200 and response.json()['results']: return
results[0]['id']` else `raise Exception(...)`. -/
def get_product_type_id (product_type_name : String) (resp : SearchResponse PTRec) :
    Except PyError Nat :=
  if resp.status_code == 200 then
    match resp.results with
    | pt :: _ => .ok pt.id
    | [] => .error (.productTypeNotFound product_type_name)
  else .error (.productTypeNotFound product_type_name)

/-- The `for product in results: if product['prod_type'] == prod_type_id:
return product['id']` loop of `get_product_id`. -/
def findMatchingProduct (prod_type_id : Nat) : List ProductRec → Option Nat
  | [] => none
  | p :: rest =>
    if p.prod_type == prod_type_id then some p.id else findMatchingProduct prod_type_id rest

/-- `get_product_id`: resolve the product type, search products by name,
accept the first candidate whose `prod_type` equals the resolved product-type
id, otherwise POST a creation request; also returns the trace of API requests
issued. -/
def get_product_id (b : Backend) (product_type_name product_name : String) :
    Except PyError Nat × List ApiRequest :=
  match get_product_type_id product_type_name (b.productTypeResp product_type_name) with
  | .error e => (.error e, [.productTypeSearch product_type_name])
  | .ok prod_type_id =>
    let sr := b.productSearchResp product_name
    match (if sr.status_code == 200 then findMatchingProduct prod_type_id sr.results
           else none) with
    | some pid =>
      (.ok pid, [.productTypeSearch product_type_name, .productSearch product_name])
    | none =>
      let req := mkProductCreateRequest product_name prod_type_id
      let cr := b.productCreateResp req
      if cr.status_code == 201 then
        (.ok cr.id,
         [.productTypeSearch product_type_name, .productSearch product_name, .productCreate req])
      else
        (.error (.productCreateFailed cr.status_code cr.content),
         [.productTypeSearch product_type_name, .productSearch product_name, .productCreate req])

/-- `get_engagement_id` applied to the response of the engagement search:
first result id on a 200 response with non-empty results, else `None`. -/
def get_engagement_id (resp : SearchResponse EngRec) : Option Nat :=
  if resp.status_code == 200 then
    match resp.results with
    | e :: _ => some e.id
    | [] => none
  else none

/-- The order used by `sorted(..., key=lambda x: x['updated'], reverse=True)`:
`a` comes before `b` when `a.updated ≥ b.updated`. -/
def descUpdated (a b : TestRec) : Prop := b.updated ≤ a.updated

instance : DecidableRel descUpdated := fun a b => Nat.decLe b.updated a.updated

instance : IsTotal TestRec descUpdated := ⟨fun a b => Nat.le_total b.updated a.updated⟩

instance : IsTrans TestRec descUpdated := ⟨fun _ _ _ hab hbc => Nat.le_trans hbc hab⟩

/-- `get_latest_test_id` applied to the response of the test search: on a 200
response with non-empty results, sort descending by `updated` and return the
first id; else `None`.  Python's `sorted` is a stable sort; a stable sort by
a fixed key is extensionally unique, so it is embedded as the (stable)
insertion sort under `descUpdated`. -/
def get_latest_test_id (resp : SearchResponse TestRec) : Option Nat :=
  if resp.status_code == 200 then
    match resp.results with
    | [] => none
    | t :: ts =>
      match List.insertionSort descUpdated (t :: ts) with
      | [] => none
      | s :: _ => some s.id
  else none

/-- One printed line of the scripts. -/
inductive LogLine where
  | processing (file product engagement : String)
  | importing (file product engagement : String)
  | importOk (file : String)
  | importFail (file : String) (status : Nat) (content : String)
  | reimportOk (file : String) (testId : Nat)
  | reimportFail (file : String) (status : Nat) (content : String)
  | errorProcessing (file : String) (msg : String)
  | unexpectedError (file : String) (msg : String)
  | noXmlFiles
  | topLevelError (msg : String)
deriving DecidableEq

/-- Whether a printed line reports an error. -/
def LogLine.isErrorLine : LogLine → Bool
  | .importFail _ _ _ => true
  | .reimportFail _ _ _ => true
  | .errorProcessing _ _ => true
  | .unexpectedError _ _ => true
  | .topLevelError _ => true
  | _ => false

/-- `import_scan` of the v1.2 script: one multipart POST; prints success on
status 201, otherwise prints a failure line with status and body.  Never
raises. -/
def import_scan (b : Backend) (file product_type_name product_name engagement_name : String) :
    List LogLine × List ApiRequest :=
  let req := mkImportRequest product_type_name product_name engagement_name
  let resp := b.importResp req
  if resp.status_code == 201 then ([.importOk file], [.importUpload req])
  else ([.importFail file resp.status_code resp.content], [.importUpload req])

/-- `reimport_scan` of the v1.2 script: one multipart POST against `test_id`;
prints success on status 201, otherwise prints a failure line with status and
body.  Never raises. -/
def reimport_scan (b : Backend) (file : String) (test_id : Nat)
    (product_type_name product_name engagement_name : String) :
    List LogLine × List ApiRequest :=
  let req := mkReimportRequest product_type_name product_name engagement_name test_id
  let resp := b.reimportResp req
  if resp.status_code == 201 then ([.reimportOk file test_id], [.reimportUpload req])
  else ([.reimportFail file resp.status_code resp.content], [.reimportUpload req])

/-- `import_scan` of the simple importer variant: same POST but with
`deduplication_on_engagement` and `close_old_findings` set to `'true'`. -/
def simple_import_scan (b : Backend)
    (file product_type_name product_name engagement_name : String) :
    List LogLine × List ApiRequest :=
  let req := mkImportRequestSimple product_type_name product_name engagement_name
  let resp := b.importResp req
  if resp.status_code == 201 then ([.importOk file], [.importUpload req])
  else ([.importFail file resp.status_code resp.content], [.importUpload req])

/-- An input report file: either unparseable XML, or a parsed document with
the text content of the first `application-name` and `asoc-scan-name`
elements (`none` when the element is absent or has no text). -/
inductive ReportFile where
  | malformed
  | parsed (application_name asoc_scan_name : Option String)
deriving DecidableEq

/-- Python truthiness of an optional string: `None` and `''` are falsy. -/
def strTruthy : Option String → Bool
  | none => false
  | some s => s != ""

/-- Python truthiness of an optional integer id: `None` and `0` are falsy. -/
def truthy : Option Nat → Bool
  | none => false
  | some n => n != 0

/-- `extract_xml_data`: `ValueError` on a parse failure, on a falsy
product name, then on a falsy engagement name; otherwise both names. -/
def extract_xml_data (path : String) (doc : ReportFile) : Except PyError (String × String) :=
  match doc with
  | .malformed => .error (.valueError ("Failed to parse XML file " ++ path))
  | .parsed application_name asoc_scan_name =>
    if strTruthy application_name then
      if strTruthy asoc_scan_name then
        .ok (application_name.getD "", asoc_scan_name.getD "")
      else .error (.valueError ("Could not find asoc-scan-name in " ++ path))
    else .error (.valueError ("Could not find application-name in " ++ path))

/-- The outcome of the per-report pipeline of `main` for one file: the lines
printed inside the `try` body, the exception that escaped it (if any), and
the API requests issued. -/
structure ReportResult where
  logs : List LogLine
  err : Option PyError
  trace : List ApiRequest
deriving DecidableEq

/-- The body of the per-file `try` block of `main` in the v1.2 script:
extract names, resolve/create the product, look up the engagement, and if it
is truthy look up the latest test; reimport when a truthy test id was found,
otherwise import. -/
def process_report (b : Backend) (product_type_name file : String) (doc : ReportFile) :
    ReportResult :=
  match extract_xml_data file doc with
  | .error e => ⟨[], some e, []⟩
  | .ok (product_name, engagement_name) =>
    let hdr := LogLine.processing file product_name engagement_name
    match get_product_id b product_type_name product_name with
    | (.error e, tr) => ⟨[hdr], some e, tr⟩
    | (.ok product_id, tr) =>
      let engagement_id := get_engagement_id (b.engagementResp product_id engagement_name)
      let tr2 := tr ++ [.engagementSearch product_id engagement_name]
      if truthy engagement_id then
        let eid := engagement_id.getD 0
        let test_id := get_latest_test_id (b.testResp eid scanType)
        let tr3 := tr2 ++ [.testSearch eid scanType]
        if truthy test_id then
          let r := reimport_scan b file (test_id.getD 0)
            product_type_name product_name engagement_name
          ⟨hdr :: r.1, none, tr3 ++ r.2⟩
        else
          let r := import_scan b file product_type_name product_name engagement_name
          ⟨hdr :: r.1, none, tr3 ++ r.2⟩
      else
        let r := import_scan b file product_type_name product_name engagement_name
        ⟨hdr :: r.1, none, tr2 ++ r.2⟩

/-- The `except ValueError` / `except Exception` handlers of the per-file
loop of the v1.2 script: each prints one line naming the file and continues. -/
def handle_error (file : String) : Option PyError → List LogLine
  | none => []
  | some e =>
    if e.isValueError then [.errorProcessing file e.msg]
    else [.unexpectedError file e.msg]

/-- Everything the v1.2 script prints for one file: the `try` body's lines,
then the handler's line when an exception escaped. -/
def per_file (b : Backend) (product_type_name file : String) (doc : ReportFile) : List LogLine :=
  let r := process_report b product_type_name file doc
  r.logs ++ handle_error file r.err

/-- The `for xml_file in xml_files:` loop of `main` in the v1.2 script. -/
def process_files (b : Backend) (product_type_name : String) :
    List (String × ReportFile) → List LogLine
  | [] => []
  | (file, doc) :: rest =>
    per_file b product_type_name file doc ++ process_files b product_type_name rest

/-- The body of the per-file `try` block of `main` in the simple importer
variant: extract names, then import unconditionally (no resolver, no
engagement or test lookup). -/
def simple_process_report (b : Backend) (product_type_name file : String) (doc : ReportFile) :
    ReportResult :=
  match extract_xml_data file doc with
  | .error e => ⟨[], some e, []⟩
  | .ok (product_name, engagement_name) =>
    let r := simple_import_scan b file product_type_name product_name engagement_name
    ⟨LogLine.importing file product_name engagement_name :: r.1, none, r.2⟩

/-- The startup environment of `main`: the settings file, the credential and
configuration keys it holds, the reports directory, its file listing, and the
token-exchange response. -/
structure Config where
  settingsExists : Bool
  api_key : Option String
  username : Option String
  password : Option String
  product_type_name : Option String
  reportsDirExists : Bool
  dirFiles : List (String × ReportFile)
  tokenStatus : Nat
  tokenValue : String
  tokenContent : String
deriving DecidableEq

/-- `get_auth_token`: the token on a 200 response, else
`Exception("Authentication failed: ...")`. -/
def get_auth_token (cfg : Config) : Except PyError String :=
  if cfg.tokenStatus == 200 then .ok cfg.tokenValue
  else .error (.authFailed cfg.tokenStatus cfg.tokenContent)

/-- The authentication block of `main`: an `api_key` takes precedence; else a
username/password pair is exchanged for a token; else
`KeyError("Missing ...")`. -/
def authenticate (cfg : Config) : Except PyError String :=
  match cfg.api_key with
  | some key => .ok key
  | none =>
    match cfg.username, cfg.password with
    | some _, some _ => get_auth_token cfg
    | _, _ => .error (.keyError "Missing api_key or username and password in settings.ini")

/-- `main` of the v1.2 script: check the settings file, authenticate, read
the product-type name, check the reports directory, list the `.xml` files,
and run the per-file loop; any startup failure is a raised exception. -/
def mainRun (b : Backend) (cfg : Config) : Except PyError (List LogLine) :=
  if cfg.settingsExists then
    match authenticate cfg with
    | .error e => .error e
    | .ok _ =>
      match cfg.product_type_name with
      | none => .error (.keyError "Missing product_type_name in settings.ini under configuration")
      | some product_type_name =>
        if cfg.reportsDirExists then
          let xml_files := cfg.dirFiles.filter (fun fd => fd.1.endsWith ".xml")
          if xml_files.isEmpty then .ok [.noXmlFiles]
          else .ok (process_files b product_type_name xml_files)
        else .error (.fileNotFound "Directory asoc_sast_reports not found")
  else .error (.fileNotFound "settings.ini file not found in the script directory")

/-- The `if __name__ == '__main__':` block: `main()` inside
`try: ... except Exception as e: print(...)`.  Every exception is caught and
printed; the interpreter then exits normally, so the exit status is always 0. -/
def topLevel (b : Backend) (cfg : Config) : List LogLine × Nat :=
  match mainRun b cfg with
  | .ok logs => (logs, 0)
  | .error e => ([.topLevelError ("An error occurred: " ++ e.msg)], 0)

/-- Modelled from the spec: one server state of the external DefectDojo API
(an external collaborator, not part of this repository) — the pre-provisioned
product types, the existing products, and the id the next creation will get.
Search endpoints answer 200 with an exact-name filter over this state and
creation answers 201 with a fresh id, per the upstream-API contract of §6. -/
structure DDState where
  productTypes : List PTRec
  products : List ProductRec
  nextId : Nat
deriving DecidableEq

/-- The response oracles presented by a server in state `s`. -/
def DDState.backend (s : DDState) : Backend where
  productTypeResp name := ⟨200, s.productTypes.filter (fun pt => pt.name == name)⟩
  productSearchResp name := ⟨200, s.products.filter (fun p => p.name == name)⟩
  productCreateResp _ := ⟨201, s.nextId, ""⟩
  engagementResp _ _ := ⟨200, []⟩
  testResp _ _ := ⟨200, []⟩
  importResp _ := ⟨201, ""⟩
  reimportResp _ := ⟨201, ""⟩

/-- How one traced request changes the server state: a product creation adds
the product under its requested product type; searches change nothing. -/
def DDState.applyReq (s : DDState) : ApiRequest → DDState
  | .productCreate req =>
    { s with products := s.products ++ [⟨s.nextId, req.name, req.prod_type⟩],
             nextId := s.nextId + 1 }
  | _ => s

/-- The server state after a trace of requests. -/
def DDState.applyTrace (s : DDState) (tr : List ApiRequest) : DDState :=
  tr.foldl DDState.applyReq s

/-! ### Helper lemmas -/

theorem process_files_append (b : Backend) (ptn : String)
    (l₁ l₂ : List (String × ReportFile)) :
    process_files b ptn (l₁ ++ l₂) = process_files b ptn l₁ ++ process_files b ptn l₂ := by
  induction l₁ with
  | nil => simp [process_files]
  | cons hd tl ih =>
    cases hd with
    | mk file doc => simp [process_files, ih]

theorem findMatchingProduct_eq_none_iff (ptId : Nat) (l : List ProductRec) :
    findMatchingProduct ptId l = none ↔ ∀ p ∈ l, p.prod_type ≠ ptId := by
  induction l with
  | nil => simp [findMatchingProduct]
  | cons p rest ih =>
    by_cases h : p.prod_type = ptId
    · simp [findMatchingProduct, h]
    · simp [findMatchingProduct, h, ih]

theorem findMatchingProduct_append_of_none (ptId : Nat) (l₁ l₂ : List ProductRec)
    (h : findMatchingProduct ptId l₁ = none) :
    findMatchingProduct ptId (l₁ ++ l₂) = findMatchingProduct ptId l₂ := by
  induction l₁ with
  | nil => simp
  | cons p rest ih =>
    rw [List.cons_append, findMatchingProduct]
    rw [findMatchingProduct] at h
    rcases hpt : (p.prod_type == ptId) with _ | _
    · rw [hpt] at h
      simp only [Bool.false_eq_true, if_false] at h ⊢
      exact ih h
    · rw [hpt] at h
      simp at h

theorem findMatchingProduct_first (ptId : Nat) (l₁ : List ProductRec) (q : ProductRec)
    (l₂ : List ProductRec) (h₁ : ∀ r ∈ l₁, r.prod_type ≠ ptId) (hq : q.prod_type = ptId) :
    findMatchingProduct ptId (l₁ ++ q :: l₂) = some q.id := by
  induction l₁ with
  | nil => simp [findMatchingProduct, hq]
  | cons p rest ih =>
    have hp : p.prod_type ≠ ptId := h₁ p (List.mem_cons_self p rest)
    rw [List.cons_append, findMatchingProduct]
    simp only [beq_iff_eq, hp, if_false]
    exact ih fun r hr => h₁ r (List.mem_cons_of_mem p hr)

theorem insertionSort_head_max (t : TestRec) (ts : List TestRec) :
    ∃ s rest, List.insertionSort descUpdated (t :: ts) = s :: rest ∧
      s ∈ t :: ts ∧ ∀ u ∈ t :: ts, u.updated ≤ s.updated := by
  have hperm := List.perm_insertionSort descUpdated (t :: ts)
  have hsorted := List.sorted_insertionSort descUpdated (t :: ts)
  cases hs : List.insertionSort descUpdated (t :: ts) with
  | nil =>
    rw [hs] at hperm
    exact absurd hperm.symm (by simp)
  | cons s rest =>
    rw [hs] at hperm hsorted
    refine ⟨s, rest, rfl, ?_, ?_⟩
    · exact hperm.mem_iff.mp (List.mem_cons_self s rest)
    · intro u hu
      have hu' : u ∈ s :: rest := hperm.mem_iff.mpr hu
      rcases List.mem_cons.mp hu' with rfl | hmem
      · exact Nat.le_refl _
      · exact (List.sorted_cons.mp hsorted).1 u hmem

theorem import_scan_trace (b : Backend) (file ptn pn en : String) :
    (import_scan b file ptn pn en).2 = [.importUpload (mkImportRequest ptn pn en)] := by
  simp only [import_scan]
  split <;> rfl

theorem reimport_scan_trace (b : Backend) (file : String) (tid : Nat) (ptn pn en : String) :
    (reimport_scan b file tid ptn pn en).2 =
      [.reimportUpload (mkReimportRequest ptn pn en tid)] := by
  simp only [reimport_scan]
  split <;> rfl

theorem get_product_id_trace_shape (b : Backend) (ptn pn : String) :
    ∀ r ∈ (get_product_id b ptn pn).2,
      r.isTestSearch = false ∧ r.isReimportUpload = false := by
  intro r hr
  rw [get_product_id] at hr
  rcases hpt : get_product_type_id ptn (b.productTypeResp ptn) with e | ptId <;>
    rw [hpt] at hr
  · simp at hr
    subst hr
    exact ⟨rfl, rfl⟩
  · simp only at hr
    rcases hf : (if (b.productSearchResp pn).status_code == 200 then
        findMatchingProduct ptId (b.productSearchResp pn).results else none) with _ | pid <;>
      rw [hf] at hr
    · simp only [apply_ite Prod.snd] at hr
      simp at hr
      rcases hr with rfl | rfl | rfl <;> exact ⟨rfl, rfl⟩
    · simp at hr
      rcases hr with rfl | rfl <;> exact ⟨rfl, rfl⟩

/-! ### Concrete fixtures used by witnesses -/

/-- A server on which product type, product, engagement and two tests
(updated at 5 and 9) all exist. -/
def bFound : Backend where
  productTypeResp _ := ⟨200, [⟨7, "SAST"⟩]⟩
  productSearchResp _ := ⟨200, [⟨3, "PayGateway", 7⟩]⟩
  productCreateResp _ := ⟨201, 99, ""⟩
  engagementResp _ _ := ⟨200, [⟨11⟩]⟩
  testResp _ _ := ⟨200, [⟨21, 5⟩, ⟨22, 9⟩]⟩
  importResp _ := ⟨201, ""⟩
  reimportResp _ := ⟨201, ""⟩

/-- A well-formed report document. -/
def docOk : ReportFile := .parsed (some "PayGateway") (some "Nightly")

/-- A server on which the only product named `PayGateway` belongs to product
type 8, while the requested product type `SAST` resolves to 7. -/
def bWrongType : Backend where
  productTypeResp _ := ⟨200, [⟨7, "SAST"⟩]⟩
  productSearchResp _ := ⟨200, [⟨3, "PayGateway", 8⟩]⟩
  productCreateResp _ := ⟨201, 99, ""⟩
  engagementResp _ _ := ⟨200, []⟩
  testResp _ _ := ⟨200, []⟩
  importResp _ := ⟨201, ""⟩
  reimportResp _ := ⟨201, ""⟩

/-- A server on which the product-type search returns zero results. -/
def bNoPT : Backend where
  productTypeResp _ := ⟨200, []⟩
  productSearchResp _ := ⟨200, []⟩
  productCreateResp _ := ⟨201, 99, ""⟩
  engagementResp _ _ := ⟨200, []⟩
  testResp _ _ := ⟨200, []⟩
  importResp _ := ⟨201, ""⟩
  reimportResp _ := ⟨201, ""⟩

/-! ### Claim theorems -/

/-- C2: `get_latest_test_id` returns `NotFound` (`none`) when the filtered
result set of a successful test search is empty, and otherwise returns the
id of a returned test whose `updated` timestamp is greatest among all
returned candidates. -/
theorem get_latest_test_id_spec (resp : SearchResponse TestRec)
    (hst : resp.status_code = 200) :
    (resp.results = [] → get_latest_test_id resp = none) ∧
    (resp.results ≠ [] →
      ∃ t ∈ resp.results, get_latest_test_id resp = some t.id ∧
        ∀ u ∈ resp.results, u.updated ≤ t.updated) := by
  constructor
  · intro h
    simp [get_latest_test_id, hst, h]
  · intro h
    match hres : resp.results with
    | [] => exact absurd hres h
    | t :: ts =>
      obtain ⟨s, rest, hs, hmem, hmax⟩ := insertionSort_head_max t ts
      have hs' : List.orderedInsert descUpdated t (List.insertionSort descUpdated ts) =
          s :: rest := hs
      refine ⟨s, hmem, ?_, hmax⟩
      simp [get_latest_test_id, hst, hres, hs']

/-- Witness for C2 at a concrete two-test response: the test updated at 9 is
selected over the one updated at 5. -/
theorem get_latest_test_id_spec_witness :
    (⟨200, [⟨21, 5⟩, ⟨22, 9⟩]⟩ : SearchResponse TestRec).status_code = 200 ∧
    (((⟨200, [⟨21, 5⟩, ⟨22, 9⟩]⟩ : SearchResponse TestRec).results = [] →
        get_latest_test_id ⟨200, [⟨21, 5⟩, ⟨22, 9⟩]⟩ = none) ∧
      ((⟨200, [⟨21, 5⟩, ⟨22, 9⟩]⟩ : SearchResponse TestRec).results ≠ [] →
        ∃ t ∈ (⟨200, [⟨21, 5⟩, ⟨22, 9⟩]⟩ : SearchResponse TestRec).results,
          get_latest_test_id ⟨200, [⟨21, 5⟩, ⟨22, 9⟩]⟩ = some t.id ∧
          ∀ u ∈ (⟨200, [⟨21, 5⟩, ⟨22, 9⟩]⟩ : SearchResponse TestRec).results,
            u.updated ≤ t.updated)) :=
  ⟨rfl, get_latest_test_id_spec ⟨200, [⟨21, 5⟩, ⟨22, 9⟩]⟩ rfl⟩

/-- C1: the Dispatcher follows the decision table.  When the engagement
lookup returns `NotFound` the action is an initial import and no test-search
request is ever issued; when the engagement is found but no test is, the
action is an initial import into that engagement; when both are found the
action is a reimport, whose single upload targets the located test id.
(Identities are assumed nonzero, as DefectDojo primary keys are; the script
tests them with Python truthiness.) -/
theorem dispatcher_decision_table (b : Backend) (ptn file : String) (doc : ReportFile)
    (pn en : String) (pid : Nat) (tr : List ApiRequest)
    (hx : extract_xml_data file doc = .ok (pn, en))
    (hp : get_product_id b ptn pn = (.ok pid, tr)) :
    (get_engagement_id (b.engagementResp pid en) = none →
      process_report b ptn file doc =
        ⟨LogLine.processing file pn en :: (import_scan b file ptn pn en).1, none,
         tr ++ [.engagementSearch pid en] ++ (import_scan b file ptn pn en).2⟩ ∧
      ∀ r ∈ (process_report b ptn file doc).trace, r.isTestSearch = false) ∧
    (∀ eid, get_engagement_id (b.engagementResp pid en) = some eid → eid ≠ 0 →
      (get_latest_test_id (b.testResp eid scanType) = none →
        process_report b ptn file doc =
          ⟨LogLine.processing file pn en :: (import_scan b file ptn pn en).1, none,
           tr ++ [.engagementSearch pid en, .testSearch eid scanType] ++
             (import_scan b file ptn pn en).2⟩) ∧
      (∀ tid, get_latest_test_id (b.testResp eid scanType) = some tid → tid ≠ 0 →
        process_report b ptn file doc =
          ⟨LogLine.processing file pn en :: (reimport_scan b file tid ptn pn en).1, none,
           tr ++ [.engagementSearch pid en, .testSearch eid scanType] ++
             (reimport_scan b file tid ptn pn en).2⟩)) ∧
    (import_scan b file ptn pn en).2 = [.importUpload (mkImportRequest ptn pn en)] ∧
    ∀ tid, (reimport_scan b file tid ptn pn en).2 =
      [.reimportUpload (mkReimportRequest ptn pn en tid)] := by
  refine ⟨?_, ?_, import_scan_trace b file ptn pn en,
    fun tid => reimport_scan_trace b file tid ptn pn en⟩
  · intro he
    have heq : process_report b ptn file doc =
        ⟨LogLine.processing file pn en :: (import_scan b file ptn pn en).1, none,
         tr ++ [.engagementSearch pid en] ++ (import_scan b file ptn pn en).2⟩ := by
      simp [process_report, hx, hp, he, truthy]
    refine ⟨heq, ?_⟩
    intro r hr
    rw [heq] at hr
    simp only [List.append_assoc, List.mem_append] at hr
    rcases hr with h1 | h2
    · exact (get_product_id_trace_shape b ptn pn r (by rw [hp]; exact h1)).1
    · rw [import_scan_trace] at h2
      simp at h2
      rcases h2 with rfl | rfl <;> rfl
  · intro eid he he0
    constructor
    · intro ht
      simp [process_report, hx, hp, he, truthy, he0, ht]
    · intro tid ht ht0
      simp [process_report, hx, hp, he, truthy, he0, ht, ht0]

/-- Witness for C1 on a concrete server where engagement 11 and tests exist:
the dispatcher reimports into the latest test (id 22). -/
theorem dispatcher_decision_table_witness :
    extract_xml_data "r.xml" docOk = .ok ("PayGateway", "Nightly") ∧
    get_product_id bFound "SAST" "PayGateway" =
      (.ok 3, [.productTypeSearch "SAST", .productSearch "PayGateway"]) ∧
    get_engagement_id (bFound.engagementResp 3 "Nightly") = some 11 ∧
    get_latest_test_id (bFound.testResp 11 scanType) = some 22 ∧
    process_report bFound "SAST" "r.xml" docOk =
      ⟨LogLine.processing "r.xml" "PayGateway" "Nightly" ::
         (reimport_scan bFound "r.xml" 22 "SAST" "PayGateway" "Nightly").1, none,
       [.productTypeSearch "SAST", .productSearch "PayGateway"] ++
         [.engagementSearch 3 "Nightly", .testSearch 11 scanType] ++
         (reimport_scan bFound "r.xml" 22 "SAST" "PayGateway" "Nightly").2⟩ := by
  refine ⟨by decide, by decide, by decide, by decide, ?_⟩
  exact (((dispatcher_decision_table bFound "SAST" "r.xml" docOk "PayGateway" "Nightly" 3
    [.productTypeSearch "SAST", .productSearch "PayGateway"] (by decide) (by decide)).2.1
    11 (by decide) (by decide)).2 22 (by decide) (by decide))

/-- C3: when every same-named candidate belongs to a different product type
than the resolved one, `get_product_id` reuses none of them and posts a
creation request carrying the requested product-type id and the fixed
placeholder description; and a candidate is accepted exactly when it is the
first one whose product-type id equals the resolved one. -/
theorem product_resolution_scoping (b : Backend) (ptn pn : String) (ptId : Nat)
    (hpt : get_product_type_id ptn (b.productTypeResp ptn) = .ok ptId) :
    ((∀ p ∈ (b.productSearchResp pn).results, p.prod_type ≠ ptId) →
      get_product_id b ptn pn =
        (if (b.productCreateResp (mkProductCreateRequest pn ptId)).status_code == 201 then
           .ok (b.productCreateResp (mkProductCreateRequest pn ptId)).id
         else .error (.productCreateFailed
                (b.productCreateResp (mkProductCreateRequest pn ptId)).status_code
                (b.productCreateResp (mkProductCreateRequest pn ptId)).content),
         [.productTypeSearch ptn, .productSearch pn,
          .productCreate (mkProductCreateRequest pn ptId)]) ∧
      (mkProductCreateRequest pn ptId).prod_type = ptId ∧
      (mkProductCreateRequest pn ptId).description =
        "Automatically created by import script") ∧
    (∀ l₁ q l₂, (b.productSearchResp pn).status_code = 200 →
      (b.productSearchResp pn).results = l₁ ++ q :: l₂ →
      (∀ r ∈ l₁, r.prod_type ≠ ptId) → q.prod_type = ptId →
      get_product_id b ptn pn = (.ok q.id, [.productTypeSearch ptn, .productSearch pn])) := by
  constructor
  · intro hno
    have hnone : findMatchingProduct ptId (b.productSearchResp pn).results = none :=
      (findMatchingProduct_eq_none_iff ptId _).mpr hno
    refine ⟨?_, rfl, rfl⟩
    rw [get_product_id, hpt]
    simp only [hnone, ite_self]
    split <;> rfl
  · intro l₁ q l₂ hst hres h₁ hq
    have hfind : findMatchingProduct ptId (b.productSearchResp pn).results = some q.id := by
      rw [hres]
      exact findMatchingProduct_first ptId l₁ q l₂ h₁ hq
    simp [get_product_id, hpt, hst, hfind]

/-- Witness for C3 on a concrete server where the only `PayGateway` product
is under product type 8 while `SAST` resolves to 7: a new product is created
under 7 with the placeholder description. -/
theorem product_resolution_scoping_witness :
    get_product_type_id "SAST" (bWrongType.productTypeResp "SAST") = .ok 7 ∧
    (∀ p ∈ (bWrongType.productSearchResp "PayGateway").results, p.prod_type ≠ 7) ∧
    get_product_id bWrongType "SAST" "PayGateway" =
      (.ok 99, [.productTypeSearch "SAST", .productSearch "PayGateway",
                .productCreate (mkProductCreateRequest "PayGateway" 7)]) ∧
    (mkProductCreateRequest "PayGateway" 7).prod_type = 7 ∧
    (mkProductCreateRequest "PayGateway" 7).description =
      "Automatically created by import script" := by
  refine ⟨by decide, by decide, ?_⟩
  have h := (product_resolution_scoping bWrongType "SAST" "PayGateway" 7 (by decide)).1
    (by decide)
  exact ⟨by rw [h.1]; decide, h.2.1, h.2.2⟩

/-- C5: when the product-type search returns zero results, product resolution
fails with the product-type-not-found error, nothing but that one search is
requested (in particular no product type is created), the current report is
abandoned with that error, and the batch continues with the remaining files. -/
theorem product_type_not_found_spec (b : Backend) (cfgPt file pn en : String)
    (doc : ReportFile) (files1 files2 : List (String × ReportFile))
    (hz : (b.productTypeResp cfgPt).results = [])
    (hx : extract_xml_data file doc = .ok (pn, en)) :
    get_product_id b cfgPt pn =
      (.error (.productTypeNotFound cfgPt), [.productTypeSearch cfgPt]) ∧
    process_report b cfgPt file doc =
      ⟨[.processing file pn en], some (.productTypeNotFound cfgPt),
       [.productTypeSearch cfgPt]⟩ ∧
    per_file b cfgPt file doc =
      [.processing file pn en,
       .unexpectedError file (PyError.productTypeNotFound cfgPt).msg] ∧
    process_files b cfgPt (files1 ++ (file, doc) :: files2) =
      process_files b cfgPt files1 ++
        [.processing file pn en,
         .unexpectedError file (PyError.productTypeNotFound cfgPt).msg] ++
      process_files b cfgPt files2 := by
  have hpt : get_product_type_id cfgPt (b.productTypeResp cfgPt) =
      .error (.productTypeNotFound cfgPt) := by
    rw [get_product_type_id, hz]
    split <;> rfl
  have hgp : get_product_id b cfgPt pn =
      (.error (.productTypeNotFound cfgPt), [.productTypeSearch cfgPt]) := by
    rw [get_product_id, hpt]
  have hpr : process_report b cfgPt file doc =
      ⟨[.processing file pn en], some (.productTypeNotFound cfgPt),
       [.productTypeSearch cfgPt]⟩ := by
    simp [process_report, hx, hgp]
  have hpf : per_file b cfgPt file doc =
      [.processing file pn en,
       .unexpectedError file (PyError.productTypeNotFound cfgPt).msg] := by
    simp [per_file, hpr, handle_error, PyError.isValueError]
  refine ⟨hgp, hpr, hpf, ?_⟩
  rw [process_files_append]
  have hcons : process_files b cfgPt ((file, doc) :: files2) =
      per_file b cfgPt file doc ++ process_files b cfgPt files2 := rfl
  rw [hcons, hpf, List.append_assoc]

/-- Witness for C5: with no product type on the server, the middle report of
a three-file batch fails with the product-type error and the other two are
still processed. -/
theorem product_type_not_found_spec_witness :
    (bNoPT.productTypeResp "SAST").results = [] ∧
    extract_xml_data "b.xml" docOk = .ok ("PayGateway", "Nightly") ∧
    get_product_id bNoPT "SAST" "PayGateway" =
      (.error (.productTypeNotFound "SAST"), [.productTypeSearch "SAST"]) ∧
    process_report bNoPT "SAST" "b.xml" docOk =
      ⟨[.processing "b.xml" "PayGateway" "Nightly"], some (.productTypeNotFound "SAST"),
       [.productTypeSearch "SAST"]⟩ ∧
    per_file bNoPT "SAST" "b.xml" docOk =
      [.processing "b.xml" "PayGateway" "Nightly",
       .unexpectedError "b.xml" (PyError.productTypeNotFound "SAST").msg] ∧
    process_files bNoPT "SAST" ([("a.xml", docOk)] ++ ("b.xml", docOk) :: [("c.xml", docOk)]) =
      process_files bNoPT "SAST" [("a.xml", docOk)] ++
        [.processing "b.xml" "PayGateway" "Nightly",
         .unexpectedError "b.xml" (PyError.productTypeNotFound "SAST").msg] ++
      process_files bNoPT "SAST" [("c.xml", docOk)] :=
  ⟨rfl, rfl,
   product_type_not_found_spec bNoPT "SAST" "b.xml" "PayGateway" "Nightly" docOk
     [("a.xml", docOk)] [("c.xml", docOk)] rfl rfl⟩

theorem per_file_of_err (b : Backend) (ptn file : String) (doc : ReportFile) (e : PyError)
    (h : (process_report b ptn file doc).err = some e) :
    per_file b ptn file doc =
      (process_report b ptn file doc).logs ++
        [if e.isValueError then .errorProcessing file e.msg
         else .unexpectedError file e.msg] := by
  rw [per_file, h]
  simp only [handle_error, apply_ite (fun l => [l])]

theorem simple_import_scan_trace (b : Backend) (file ptn pn en : String) :
    (simple_import_scan b file ptn pn en).2 =
      [.importUpload (mkImportRequestSimple ptn pn en)] := by
  simp only [simple_import_scan]
  split <;> rfl

theorem extract_xml_data_error_isValueError (path : String) (doc : ReportFile) (e : PyError)
    (h : extract_xml_data path doc = .error e) : e.isValueError = true := by
  cases doc with
  | malformed =>
    rw [extract_xml_data] at h
    cases h
    rfl
  | parsed an sn =>
    rw [extract_xml_data] at h
    split at h
    · split at h
      · exact absurd h (by simp)
      · cases h
        rfl
    · cases h
      rfl

/-- C4: a failure of any stage while processing one file is caught by the
per-file handlers of the loop, one line naming the file and the reason is
printed, and the remaining files are still processed; additionally, every
per-report failure of the simple importer variant is a `ValueError`, so its
`except ValueError` handler also isolates every failure. -/
theorem batch_failure_isolation (b : Backend) (ptn : String)
    (files1 files2 : List (String × ReportFile)) (file : String) (doc : ReportFile)
    (e : PyError) (hfail : (process_report b ptn file doc).err = some e) :
    process_files b ptn (files1 ++ (file, doc) :: files2) =
      process_files b ptn files1 ++
        ((process_report b ptn file doc).logs ++
          [if e.isValueError then .errorProcessing file e.msg
           else .unexpectedError file e.msg]) ++
      process_files b ptn files2 ∧
    ∀ doc2 e2, (simple_process_report b ptn file doc2).err = some e2 →
      e2.isValueError = true := by
  constructor
  · rw [process_files_append]
    have hcons : process_files b ptn ((file, doc) :: files2) =
        per_file b ptn file doc ++ process_files b ptn files2 := rfl
    rw [hcons]
    rw [per_file_of_err b ptn file doc e hfail]
    simp [List.append_assoc]
  · intro doc2 e2 h
    rw [simple_process_report] at h
    rcases hex : extract_xml_data file doc2 with e' | v
    · rw [hex] at h
      simp only at h
      cases h
      exact extract_xml_data_error_isValueError file doc2 e2 hex
    · rcases v with ⟨pnv, env⟩
      rw [hex] at h
      simp at h

/-- Witness for C4: in a three-file batch the middle file is malformed; its
`ValueError` is logged with the file name and the other two files are still
processed. -/
theorem batch_failure_isolation_witness :
    (process_report bFound "SAST" "bad.xml" .malformed).err =
      some (.valueError "Failed to parse XML file bad.xml") ∧
    (process_files bFound "SAST"
        ([("a.xml", docOk)] ++ ("bad.xml", ReportFile.malformed) :: [("c.xml", docOk)]) =
      process_files bFound "SAST" [("a.xml", docOk)] ++
        ((process_report bFound "SAST" "bad.xml" .malformed).logs ++
          [if (PyError.valueError "Failed to parse XML file bad.xml").isValueError then
             .errorProcessing "bad.xml" (PyError.valueError "Failed to parse XML file bad.xml").msg
           else
             .unexpectedError "bad.xml"
               (PyError.valueError "Failed to parse XML file bad.xml").msg]) ++
      process_files bFound "SAST" [("c.xml", docOk)] ∧
    ∀ doc2 e2, (simple_process_report bFound "SAST" "bad.xml" doc2).err = some e2 →
      e2.isValueError = true) :=
  ⟨rfl, batch_failure_isolation bFound "SAST" [("a.xml", docOk)] [("c.xml", docOk)]
    "bad.xml" .malformed (.valueError "Failed to parse XML file bad.xml") rfl⟩

/-- C6: on the append path the reimport upload targets the located test id
and carries `do_not_reactivate = 'true'`, `deduplication_on_engagement =
'false'` and `close_old_findings = 'false'`; the report completes without an
exception; success is exactly status 201 and any other status yields a
failure line carrying the status and body. -/
theorem reimport_upload_spec (b : Backend) (ptn file : String) (doc : ReportFile)
    (pn en : String) (pid : Nat) (tr : List ApiRequest) (eid tid : Nat)
    (hx : extract_xml_data file doc = .ok (pn, en))
    (hp : get_product_id b ptn pn = (.ok pid, tr))
    (he : get_engagement_id (b.engagementResp pid en) = some eid) (he0 : eid ≠ 0)
    (ht : get_latest_test_id (b.testResp eid scanType) = some tid) (ht0 : tid ≠ 0) :
    (mkReimportRequest ptn pn en tid).test = tid ∧
    (mkReimportRequest ptn pn en tid).do_not_reactivate = "true" ∧
    (mkReimportRequest ptn pn en tid).deduplication_on_engagement = "false" ∧
    (mkReimportRequest ptn pn en tid).close_old_findings = "false" ∧
    (process_report b ptn file doc).err = none ∧
    (process_report b ptn file doc).trace =
      tr ++ [.engagementSearch pid en, .testSearch eid scanType,
             .reimportUpload (mkReimportRequest ptn pn en tid)] ∧
    ((b.reimportResp (mkReimportRequest ptn pn en tid)).status_code = 201 →
      (process_report b ptn file doc).logs =
        [.processing file pn en, .reimportOk file tid]) ∧
    ((b.reimportResp (mkReimportRequest ptn pn en tid)).status_code ≠ 201 →
      (process_report b ptn file doc).logs =
        [.processing file pn en,
         .reimportFail file (b.reimportResp (mkReimportRequest ptn pn en tid)).status_code
           (b.reimportResp (mkReimportRequest ptn pn en tid)).content]) := by
  have hpr : process_report b ptn file doc =
      ⟨LogLine.processing file pn en :: (reimport_scan b file tid ptn pn en).1, none,
       tr ++ [.engagementSearch pid en, .testSearch eid scanType] ++
         (reimport_scan b file tid ptn pn en).2⟩ := by
    simp [process_report, hx, hp, he, truthy, he0, ht, ht0]
  refine ⟨rfl, rfl, rfl, rfl, by rw [hpr], ?_, ?_, ?_⟩
  · rw [hpr]
    simp [reimport_scan_trace]
  · intro h201
    rw [hpr]
    simp [reimport_scan, h201]
  · intro hnot
    rw [hpr]
    simp [reimport_scan, hnot]

/-- Witness for C6 on the concrete server `bFound`: the reimport request
targets test 22 with the required flags and the 201 response yields the
success line. -/
theorem reimport_upload_spec_witness :
    extract_xml_data "r.xml" docOk = .ok ("PayGateway", "Nightly") ∧
    (mkReimportRequest "SAST" "PayGateway" "Nightly" 22).test = 22 ∧
    (mkReimportRequest "SAST" "PayGateway" "Nightly" 22).do_not_reactivate = "true" ∧
    (mkReimportRequest "SAST" "PayGateway" "Nightly" 22).deduplication_on_engagement =
      "false" ∧
    (mkReimportRequest "SAST" "PayGateway" "Nightly" 22).close_old_findings = "false" ∧
    (process_report bFound "SAST" "r.xml" docOk).err = none ∧
    (process_report bFound "SAST" "r.xml" docOk).trace =
      [.productTypeSearch "SAST", .productSearch "PayGateway"] ++
        [.engagementSearch 3 "Nightly", .testSearch 11 scanType,
         .reimportUpload (mkReimportRequest "SAST" "PayGateway" "Nightly" 22)] ∧
    (process_report bFound "SAST" "r.xml" docOk).logs =
      [.processing "r.xml" "PayGateway" "Nightly", .reimportOk "r.xml" 22] := by
  have h := reimport_upload_spec bFound "SAST" "r.xml" docOk "PayGateway" "Nightly" 3
    [.productTypeSearch "SAST", .productSearch "PayGateway"] 11 22
    (by decide) (by decide) (by decide) (by decide) (by decide) (by decide)
  exact ⟨by decide, h.1, h.2.1, h.2.2.1, h.2.2.2.1, h.2.2.2.2.1, h.2.2.2.2.2.1,
    h.2.2.2.2.2.2.1 (by decide)⟩

theorem DDState.backend_productTypeResp (s : DDState) (n : String) :
    s.backend.productTypeResp n = ⟨200, s.productTypes.filter (fun pt => pt.name == n)⟩ := rfl

theorem DDState.backend_productSearchResp (s : DDState) (n : String) :
    s.backend.productSearchResp n = ⟨200, s.products.filter (fun p => p.name == n)⟩ := rfl

/-- C7: resolving the same `(productTypeName, productName)` pair twice
against a server whose state changed only by the first call's own requests
yields the same product id both times, and the second call issues no
product-creation request, so it leaves the server state unchanged. -/
theorem resolve_product_idempotent (s : DDState) (ptn pn : String) (pid : Nat)
    (tr : List ApiRequest)
    (h : get_product_id s.backend ptn pn = (.ok pid, tr)) :
    ∃ tr2, get_product_id (s.applyTrace tr).backend ptn pn = (.ok pid, tr2) ∧
      (∀ r ∈ tr2, r.isProductCreate = false) ∧
      (s.applyTrace tr).applyTrace tr2 = s.applyTrace tr := by
  rcases hft : s.productTypes.filter (fun pt => pt.name == ptn) with _ | ⟨pt, rest⟩
  · have hpt : get_product_type_id ptn (s.backend.productTypeResp ptn) =
        .error (.productTypeNotFound ptn) := by
      rw [DDState.backend_productTypeResp, hft]
      rfl
    rw [get_product_id, hpt] at h
    exact absurd (congrArg Prod.fst h) (by simp)
  · have hpt : get_product_type_id ptn (s.backend.productTypeResp ptn) = .ok pt.id := by
      rw [DDState.backend_productTypeResp, hft]
      rfl
    rw [get_product_id, hpt] at h
    simp only [DDState.backend_productSearchResp] at h
    rw [if_pos (by rfl)] at h
    rcases hfind : findMatchingProduct pt.id (s.products.filter fun p => p.name == pn) with
        _ | pid0 <;> rw [hfind] at h
    · -- no match: the first call created the product
      rw [if_pos (by rfl)] at h
      have hpid : pid = s.nextId := by
        have := congrArg Prod.fst h
        simp at this
        exact this.symm
      have htr : tr = [.productTypeSearch ptn, .productSearch pn,
          .productCreate (mkProductCreateRequest pn pt.id)] := by
        have := congrArg Prod.snd h
        simp at this
        exact this.symm
      subst hpid
      subst htr
      have hs' : s.applyTrace [ApiRequest.productTypeSearch ptn, .productSearch pn,
            .productCreate (mkProductCreateRequest pn pt.id)] =
          ⟨s.productTypes, s.products ++ [⟨s.nextId, pn, pt.id⟩], s.nextId + 1⟩ := rfl
      rw [hs']
      have hpt2 : get_product_type_id ptn
          ((⟨s.productTypes, s.products ++ [⟨s.nextId, pn, pt.id⟩], s.nextId + 1⟩ :
            DDState).backend.productTypeResp ptn) = .ok pt.id := by
        rw [DDState.backend_productTypeResp]
        show get_product_type_id ptn ⟨200, s.productTypes.filter (fun pt => pt.name == ptn)⟩ =
          .ok pt.id
        rw [hft]
        rfl
      have hfilter2 : (s.products ++ [(⟨s.nextId, pn, pt.id⟩ : ProductRec)]).filter
          (fun p => p.name == pn) =
          s.products.filter (fun p => p.name == pn) ++ [(⟨s.nextId, pn, pt.id⟩ : ProductRec)] := by
        rw [List.filter_append]
        simp
      have hfind2 : findMatchingProduct pt.id
          ((s.products ++ [(⟨s.nextId, pn, pt.id⟩ : ProductRec)]).filter
            (fun p => p.name == pn)) = some s.nextId := by
        rw [hfilter2, findMatchingProduct_append_of_none _ _ _ hfind]
        simp [findMatchingProduct]
      refine ⟨[.productTypeSearch ptn, .productSearch pn], ?_, ?_, rfl⟩
      · rw [get_product_id, hpt2]
        simp only [DDState.backend_productSearchResp]
        rw [if_pos (by rfl), hfind2]
      · intro r hr
        simp at hr
        rcases hr with rfl | rfl <;> rfl
    · -- a matching product already existed: nothing was created
      have hpid : pid = pid0 := by
        have := congrArg Prod.fst h
        simp at this
        exact this.symm
      have htr : tr = [.productTypeSearch ptn, .productSearch pn] := by
        have := congrArg Prod.snd h
        simp at this
        exact this.symm
      subst hpid
      subst htr
      have hs' : s.applyTrace [ApiRequest.productTypeSearch ptn, .productSearch pn] = s := rfl
      rw [hs']
      refine ⟨[.productTypeSearch ptn, .productSearch pn], ?_, ?_, rfl⟩
      · rw [get_product_id, hpt]
        simp only [DDState.backend_productSearchResp]
        rw [if_pos (by rfl), hfind]
      · intro r hr
        simp at hr
        rcases hr with rfl | rfl <;> rfl

/-- The concrete server state for the C7 witness: product type 7 exists and
the only `PayGateway` product is under a different type, so the first
resolution creates product 40 and the second finds it. -/
def s0 : DDState := ⟨[⟨7, "SAST"⟩], [⟨3, "PayGateway", 8⟩], 40⟩

/-- Witness for C7: the first call creates product 40; the second call
returns 40 again without creating anything. -/
theorem resolve_product_idempotent_witness :
    get_product_id s0.backend "SAST" "PayGateway" =
      (.ok 40, [.productTypeSearch "SAST", .productSearch "PayGateway",
                .productCreate (mkProductCreateRequest "PayGateway" 7)]) ∧
    ∃ tr2, get_product_id (s0.applyTrace
        [.productTypeSearch "SAST", .productSearch "PayGateway",
         .productCreate (mkProductCreateRequest "PayGateway" 7)]).backend
        "SAST" "PayGateway" = (.ok 40, tr2) ∧
      (∀ r ∈ tr2, r.isProductCreate = false) ∧
      (s0.applyTrace [.productTypeSearch "SAST", .productSearch "PayGateway",
         .productCreate (mkProductCreateRequest "PayGateway" 7)]).applyTrace tr2 =
        s0.applyTrace [.productTypeSearch "SAST", .productSearch "PayGateway",
         .productCreate (mkProductCreateRequest "PayGateway" 7)] :=
  ⟨by decide, resolve_product_idempotent s0 "SAST" "PayGateway" 40
    [.productTypeSearch "SAST", .productSearch "PayGateway",
     .productCreate (mkProductCreateRequest "PayGateway" 7)] (by decide)⟩

/-- A server whose engagement and test search endpoints answer with status
500 (an error), everything else healthy. -/
def bEngErr : Backend where
  productTypeResp _ := ⟨200, [⟨7, "SAST"⟩]⟩
  productSearchResp _ := ⟨200, [⟨3, "PayGateway", 7⟩]⟩
  productCreateResp _ := ⟨201, 99, ""⟩
  engagementResp _ _ := ⟨500, [⟨11⟩]⟩
  testResp _ _ := ⟨500, [⟨21, 5⟩]⟩
  importResp _ := ⟨201, ""⟩
  reimportResp _ := ⟨201, ""⟩

/-- C8 counterexample: the simple variant's processing of a report is not
equal to the full variant's CreateNew path — the upload flags differ
(`'true'`/`'true'` versus `'false'`/`'false'`) and the simple variant issues
none of the resolver's requests. -/
theorem simple_variant_counterexample :
    (mkImportRequestSimple "SAST" "PayGateway" "Nightly").deduplication_on_engagement =
      "true" ∧
    (mkImportRequest "SAST" "PayGateway" "Nightly").deduplication_on_engagement = "false" ∧
    (mkImportRequestSimple "SAST" "PayGateway" "Nightly").close_old_findings = "true" ∧
    (mkImportRequest "SAST" "PayGateway" "Nightly").close_old_findings = "false" ∧
    mkImportRequestSimple "SAST" "PayGateway" "Nightly" ≠
      mkImportRequest "SAST" "PayGateway" "Nightly" ∧
    get_engagement_id (bWrongType.engagementResp 99 "Nightly") = none ∧
    simple_process_report bWrongType "SAST" "r.xml" docOk ≠
      process_report bWrongType "SAST" "r.xml" docOk := by decide

/-- C8 amended: the simple variant always selects CreateNew — for any
extractable report it issues exactly one import upload and never a test
search or reimport upload — and its import request agrees with the full
variant's import request on the scan type and the naming fields, but sets
`deduplication_on_engagement` and `close_old_findings` to `'true'` where the
full variant sets them to `'false'`. -/
theorem simple_variant_spec (b : Backend) (ptn file pn en : String) (doc : ReportFile)
    (hx : extract_xml_data file doc = .ok (pn, en)) :
    (simple_process_report b ptn file doc).trace =
      [.importUpload (mkImportRequestSimple ptn pn en)] ∧
    (∀ r ∈ (simple_process_report b ptn file doc).trace,
      r.isReimportUpload = false ∧ r.isTestSearch = false) ∧
    (simple_process_report b ptn file doc).err = none ∧
    (mkImportRequestSimple ptn pn en).scan_type = (mkImportRequest ptn pn en).scan_type ∧
    (mkImportRequestSimple ptn pn en).product_type_name =
      (mkImportRequest ptn pn en).product_type_name ∧
    (mkImportRequestSimple ptn pn en).product_name =
      (mkImportRequest ptn pn en).product_name ∧
    (mkImportRequestSimple ptn pn en).engagement_name =
      (mkImportRequest ptn pn en).engagement_name ∧
    (mkImportRequestSimple ptn pn en).auto_create_context =
      (mkImportRequest ptn pn en).auto_create_context ∧
    (mkImportRequestSimple ptn pn en).deduplication_on_engagement = "true" ∧
    (mkImportRequest ptn pn en).deduplication_on_engagement = "false" ∧
    (mkImportRequestSimple ptn pn en).close_old_findings = "true" ∧
    (mkImportRequest ptn pn en).close_old_findings = "false" := by
  have htrace : (simple_process_report b ptn file doc).trace =
      [.importUpload (mkImportRequestSimple ptn pn en)] := by
    rw [simple_process_report, hx]
    exact simple_import_scan_trace b file ptn pn en
  refine ⟨htrace, ?_, ?_, rfl, rfl, rfl, rfl, rfl, rfl, rfl, rfl, rfl⟩
  · intro r hr
    rw [htrace] at hr
    simp at hr
    subst hr
    exact ⟨rfl, rfl⟩
  · rw [simple_process_report, hx]

/-- Witness for C8's amended theorem at a concrete report. -/
theorem simple_variant_spec_witness :
    extract_xml_data "r.xml" docOk = .ok ("PayGateway", "Nightly") ∧
    (simple_process_report bWrongType "SAST" "r.xml" docOk).trace =
      [.importUpload (mkImportRequestSimple "SAST" "PayGateway" "Nightly")] ∧
    (∀ r ∈ (simple_process_report bWrongType "SAST" "r.xml" docOk).trace,
      r.isReimportUpload = false ∧ r.isTestSearch = false) ∧
    (simple_process_report bWrongType "SAST" "r.xml" docOk).err = none ∧
    (mkImportRequestSimple "SAST" "PayGateway" "Nightly").deduplication_on_engagement =
      "true" ∧
    (mkImportRequest "SAST" "PayGateway" "Nightly").deduplication_on_engagement = "false" := by
  have h := simple_variant_spec bWrongType "SAST" "r.xml" "PayGateway" "Nightly" docOk
    (by decide)
  exact ⟨by decide, h.1, h.2.1, h.2.2.1, h.2.2.2.2.2.2.2.2.1, h.2.2.2.2.2.2.2.2.2.1⟩

/-- C9 counterexample: the engagement search answers with an error status
(500); the script converts it into `NotFound` with no log line — the report
completes by initial import and not a single error line is printed. -/
theorem silent_error_counterexample :
    (bEngErr.engagementResp 3 "Nightly").status_code = 500 ∧
    get_engagement_id (bEngErr.engagementResp 3 "Nightly") = none ∧
    (bEngErr.testResp 11 scanType).status_code = 500 ∧
    get_latest_test_id (bEngErr.testResp 11 scanType) = none ∧
    per_file bEngErr "SAST" "r.xml" docOk =
      [.processing "r.xml" "PayGateway" "Nightly", .importOk "r.xml"] ∧
    (∀ l ∈ per_file bEngErr "SAST" "r.xml" docOk, l.isErrorLine = false) ∧
    (process_report bEngErr "SAST" "r.xml" docOk).err = none := by decide

/-- C9 amended: exceptions escaping the per-report pipeline are always
caught and logged with the file name, and a failed upload prints a failure
line with status and body; but a non-200 response from the engagement search
or from the test search is silently converted into the `NotFound` outcome —
those two lookups emit no log and raise nothing. -/
theorem error_logging_spec :
    (∀ r : SearchResponse EngRec, r.status_code ≠ 200 → get_engagement_id r = none) ∧
    (∀ r : SearchResponse TestRec, r.status_code ≠ 200 → get_latest_test_id r = none) ∧
    (∀ (b : Backend) (ptn file : String) (doc : ReportFile) (e : PyError),
      (process_report b ptn file doc).err = some e →
      per_file b ptn file doc =
        (process_report b ptn file doc).logs ++
          [if e.isValueError then LogLine.errorProcessing file e.msg
           else LogLine.unexpectedError file e.msg] ∧
      (if e.isValueError then LogLine.errorProcessing file e.msg
       else LogLine.unexpectedError file e.msg).isErrorLine = true) ∧
    (∀ (b : Backend) (file ptn pn en : String),
      (b.importResp (mkImportRequest ptn pn en)).status_code ≠ 201 →
      import_scan b file ptn pn en =
        ([.importFail file (b.importResp (mkImportRequest ptn pn en)).status_code
            (b.importResp (mkImportRequest ptn pn en)).content],
         [.importUpload (mkImportRequest ptn pn en)])) := by
  refine ⟨?_, ?_, ?_, ?_⟩
  · intro r h
    rw [get_engagement_id, if_neg]
    simp [h]
  · intro r h
    rw [get_latest_test_id, if_neg]
    simp [h]
  · intro b ptn file doc e h
    refine ⟨per_file_of_err b ptn file doc e h, ?_⟩
    split <;> rfl
  · intro b file ptn pn en h
    rw [import_scan, if_neg]
    simp [h]

/-- Witness for C9's amended theorem: a 500 engagement-search response
becomes `none`, and a concrete malformed report is logged at the boundary. -/
theorem error_logging_spec_witness :
    ((bEngErr.engagementResp 3 "Nightly").status_code ≠ 200 ∧
      get_engagement_id (bEngErr.engagementResp 3 "Nightly") = none) ∧
    ((process_report bFound "SAST" "bad.xml" .malformed).err =
        some (.valueError "Failed to parse XML file bad.xml") ∧
      per_file bFound "SAST" "bad.xml" .malformed =
        (process_report bFound "SAST" "bad.xml" .malformed).logs ++
          [if (PyError.valueError "Failed to parse XML file bad.xml").isValueError then
             LogLine.errorProcessing "bad.xml"
               (PyError.valueError "Failed to parse XML file bad.xml").msg
           else LogLine.unexpectedError "bad.xml"
             (PyError.valueError "Failed to parse XML file bad.xml").msg] ∧
      (if (PyError.valueError "Failed to parse XML file bad.xml").isValueError then
         LogLine.errorProcessing "bad.xml"
           (PyError.valueError "Failed to parse XML file bad.xml").msg
       else LogLine.unexpectedError "bad.xml"
         (PyError.valueError "Failed to parse XML file bad.xml").msg).isErrorLine = true) :=
  ⟨⟨by decide, error_logging_spec.1 (bEngErr.engagementResp 3 "Nightly") (by decide)⟩,
   ⟨by decide, error_logging_spec.2.2.1 bFound "SAST" "bad.xml" .malformed
      (.valueError "Failed to parse XML file bad.xml") (by decide)⟩⟩

/-- A startup environment with no `settings.ini`. -/
def cfgNoSettings : Config := ⟨false, none, none, none, none, false, [], 0, "", ""⟩

/-- C10 counterexample: with the settings file missing, the process prints
the diagnostic but terminates with exit status 0, not a non-zero status —
the top-level handler catches every exception and the interpreter exits
normally. -/
theorem startup_exit_counterexample :
    topLevel bFound cfgNoSettings =
      ([.topLevelError
          ("An error occurred: settings.ini file not found in the script directory")], 0) ∧
    (topLevel bFound cfgNoSettings).2 = 0 := by decide

/-- C10 amended: on every fatal startup condition (missing settings file,
missing credential keys, failed token exchange, missing product-type key,
missing report directory) the process prints a single diagnostic line and
terminates with exit status 0 — the exception is caught by the top-level
handler, so the exit status is not non-zero — and no report is processed
(the diagnostic is the only output). -/
theorem startup_fatal_spec (b : Backend) (cfg : Config) :
    (cfg.settingsExists = false →
      topLevel b cfg =
        ([.topLevelError
            ("An error occurred: settings.ini file not found in the script directory")], 0)) ∧
    (cfg.settingsExists = true → cfg.api_key = none →
      (cfg.username = none ∨ cfg.password = none) →
      topLevel b cfg =
        ([.topLevelError
            ("An error occurred: Missing api_key or username and password in settings.ini")],
         0)) ∧
    (∀ u p, cfg.settingsExists = true → cfg.api_key = none → cfg.username = some u →
      cfg.password = some p → cfg.tokenStatus ≠ 200 →
      topLevel b cfg =
        ([.topLevelError
            ("An error occurred: " ++ (PyError.authFailed cfg.tokenStatus cfg.tokenContent).msg)],
         0)) ∧
    (∀ k, cfg.settingsExists = true → cfg.api_key = some k →
      cfg.product_type_name = none →
      topLevel b cfg =
        ([.topLevelError
            ("An error occurred: Missing product_type_name in settings.ini under configuration")],
         0)) ∧
    (∀ k ptn, cfg.settingsExists = true → cfg.api_key = some k →
      cfg.product_type_name = some ptn → cfg.reportsDirExists = false →
      topLevel b cfg =
        ([.topLevelError ("An error occurred: Directory asoc_sast_reports not found")], 0)) := by
  refine ⟨?_, ?_, ?_, ?_, ?_⟩
  · intro h
    simp [topLevel, mainRun, h, PyError.msg]
  · intro hs hk hup
    rcases hcu : cfg.username with _ | u
    · simp [topLevel, mainRun, authenticate, hs, hk, hcu, PyError.msg]
    · rcases hcp : cfg.password with _ | p
      · simp [topLevel, mainRun, authenticate, hs, hk, hcu, hcp, PyError.msg]
      · rcases hup with h | h
        · rw [hcu] at h
          exact absurd h (by simp)
        · rw [hcp] at h
          exact absurd h (by simp)
  · intro u p hs hk hu hp htok
    simp [topLevel, mainRun, authenticate, get_auth_token, hs, hk, hu, hp, htok]
  · intro k hs hk hptn
    simp [topLevel, mainRun, authenticate, hs, hk, hptn, PyError.msg]
  · intro k ptn hs hk hptn hd
    simp [topLevel, mainRun, authenticate, hs, hk, hptn, hd, PyError.msg]

/-- Witness for C10's amended theorem: missing settings file and missing
report directory, each yielding the diagnostic and exit status 0. -/
theorem startup_fatal_spec_witness :
    (cfgNoSettings.settingsExists = false ∧
      topLevel bFound cfgNoSettings =
        ([.topLevelError
            ("An error occurred: settings.ini file not found in the script directory")], 0)) ∧
    ((⟨true, some "k", none, none, some "SAST", false, [], 0, "", ""⟩ :
        Config).reportsDirExists = false ∧
      topLevel bFound ⟨true, some "k", none, none, some "SAST", false, [], 0, "", ""⟩ =
        ([.topLevelError ("An error occurred: Directory asoc_sast_reports not found")], 0)) :=
  ⟨⟨rfl, (startup_fatal_spec bFound cfgNoSettings).1 rfl⟩,
   ⟨rfl, (startup_fatal_spec bFound
      ⟨true, some "k", none, none, some "SAST", false, [], 0, "", ""⟩).2.2.2.2 "k" "SAST"
      rfl rfl rfl rfl⟩⟩

end DefectDojo
